import Mathlib

/-!
# Verification of the NoteApp signup / OTP / notes flow

Shallow embedding of the request handlers in `src/NoteApp/app.js` (and the
variant in `src/unnamed/part_000`) of the Development-Practice repository.

The persistent MongoDB collections (User, OTP, Note) are modelled as lists of
records; a document id is a `Nat`.  The per-request session object is modelled
by the three fields the handlers touch: `userId`, `userIdentifier` (the
pending signup email) and `tempUserIdentifier` (the verified email marker set
by a successful OTP check).  External collaborators (the random code source,
bcrypt, mongoose id generation, the clock, nodemailer) are passed in as
explicit arguments; the mail that `transporter.sendMail` would deliver is
returned as data.  JavaScript `undefined` for a session field is `none`;
JavaScript truthiness of a string (`if (!email)`) is `none` or the empty
string.
-/

/-- One document of the `OTP` collection (`src/NoteApp/models/otp.js`):
`{ userIdentifier : String, otp : String, createdAt : Date }` plus the
mongoose `_id`. -/
structure OtpRecord where
  id : Nat
  userIdentifier : String
  otp : String
  createdAt : Nat
deriving Repr, DecidableEq

/-- One document of the `User` collection.  The schema file
(`models/user.js`) is not among the sources; the handlers read and write the
fields `email` and `password` plus the mongoose `_id`.  `email` is an
`Option String` because `POST /set-password` stores
`req.session.tempUserIdentifier`, which may be `undefined`, and mongoose by
default accepts a document with a missing field. -/
structure User where
  id : Nat
  email : Option String
  password : String
deriving Repr, DecidableEq

/-- One document of the `Note` collection (schema in `src/unnamed/part_000`):
`{ title, content, user : ObjectId }` plus the mongoose `_id`. -/
structure Note where
  id : Nat
  title : String
  content : String
  user : Nat
deriving Repr, DecidableEq

/-- The server-side session record for one cookie, restricted to the three
fields the handlers use: `req.session.userId`,
`req.session.userIdentifier` and `req.session.tempUserIdentifier`.
`none` models the JavaScript `undefined` of an unset field. -/
structure Session where
  userId : Option Nat
  userIdentifier : Option String
  tempUserIdentifier : Option String
deriving Repr, DecidableEq

/-- The three persistent collections together. -/
structure Store where
  users : List User
  otps : List OtpRecord
  notes : List Note
deriving Repr, DecidableEq

/-- A mail handed to `transporter.sendMail`. -/
structure Mail where
  recipient : String
  subject : String
  text : String
deriving Repr, DecidableEq

/-- JavaScript string falsiness: `!email` is true for `undefined` and `""`. -/
def strFalsy : Option String → Bool
  | none => true
  | some s => s = ""

/-! ## The sort of `OTP.find({userIdentifier: email}).sort({createdAt: -1})`

Mongo returns the matching documents ordered by `createdAt` descending;
ties keep their relative (natural) order.  We model it as a stable insertion
sort, descending on `createdAt`. -/

/-- Insert a record into a list kept in descending `createdAt` order,
placing it before the first strictly older record (stable for ties). -/
def insertDesc (r : OtpRecord) : List OtpRecord → List OtpRecord
  | [] => [r]
  | s :: rest =>
      if s.createdAt ≤ r.createdAt then r :: s :: rest
      else s :: insertDesc r rest

/-- Stable sort by `createdAt` descending, the order
`.sort({ createdAt: -1 })` yields. -/
def sortOtpsDesc : List OtpRecord → List OtpRecord
  | [] => []
  | r :: rest => insertDesc r (sortOtpsDesc rest)

/-- `OTP.deleteOne({_id: i})`: remove the first record carrying id `i`. -/
def deleteById (i : Nat) : List OtpRecord → List OtpRecord
  | [] => []
  | r :: rest => if r.id = i then rest else r :: deleteById i rest

/-- `OTP.find({ userIdentifier: email })`: the records for one identity. -/
def otpRecordsFor (email : String) (store : Store) : List OtpRecord :=
  store.otps.filter (fun r => r.userIdentifier == email)

/-! ## POST /verify-otp  (`src/NoteApp/app.js`, lines 179-216) -/

/-- The four outcomes of `POST /verify-otp`.  The spec's names map to the
code's responses: `NoPendingIdentity` ↦ "Session expired or email not
found.", `NoOtpFound` ↦ "No OTP record found.", `OtpMismatch` ↦
"Invalid OTP", success ↦ redirect to `/set-password`. -/
inductive VerifyResult where
  | sessionExpired
  | noOtpFound
  | invalidOtp
  | redirectSetPassword
deriving Repr, DecidableEq

/-- The `POST /verify-otp` handler.  Reads the pending email from the
session; fetches all OTP records for it sorted newest-first; compares the
submitted code against the first (latest) record only; on match deletes that
record by `_id` and sets `tempUserIdentifier` (it does not clear
`userIdentifier` and does not touch `userId`). -/
def verifyOtp (otp : String) (sess : Session) (store : Store) :
    VerifyResult × Session × Store :=
  if strFalsy sess.userIdentifier then
    (.sessionExpired, sess, store)
  else
    match sess.userIdentifier with
    | none => (.sessionExpired, sess, store)
    | some email =>
      match sortOtpsDesc (otpRecordsFor email store) with
      | [] => (.noOtpFound, sess, store)
      | latestOtp :: _ =>
        if latestOtp.otp ≠ otp then
          (.invalidOtp, sess, store)
        else
          (.redirectSetPassword,
           { sess with tempUserIdentifier := some email },
           { store with otps := deleteById latestOtp.id store.otps })

/-! ## Basic lemmas about the sort -/

theorem mem_insertDesc {s r : OtpRecord} {l : List OtpRecord} :
    s ∈ insertDesc r l ↔ s = r ∨ s ∈ l := by
  induction l with
  | nil => simp [insertDesc]
  | cons t rest ih =>
      by_cases h : t.createdAt ≤ r.createdAt
      · simp [insertDesc, h]
      · simp only [insertDesc, if_neg h, List.mem_cons, ih]
        tauto

theorem mem_sortOtpsDesc {s : OtpRecord} {l : List OtpRecord} :
    s ∈ sortOtpsDesc l ↔ s ∈ l := by
  induction l with
  | nil => simp [sortOtpsDesc]
  | cons r rest ih =>
      simp only [sortOtpsDesc, mem_insertDesc, List.mem_cons, ih]

theorem head_insertDesc_of_ge {m : OtpRecord} {l : List OtpRecord}
    (h : ∀ s ∈ l, s.createdAt ≤ m.createdAt) :
    insertDesc m l = m :: l := by
  cases l with
  | nil => rfl
  | cons s rest =>
      have hs : s.createdAt ≤ m.createdAt := h s (List.mem_cons_self ..)
      simp [insertDesc, hs]

/-- If `m` belongs to `l` and every other element of `l` was created strictly
earlier, `m` heads the descending sort. -/
theorem head_sortOtpsDesc {m : OtpRecord} {l : List OtpRecord}
    (hmem : m ∈ l) (hmax : ∀ s ∈ l, s = m ∨ s.createdAt < m.createdAt) :
    ∃ t, sortOtpsDesc l = m :: t := by
  induction l with
  | nil => cases hmem
  | cons r rest ih =>
      by_cases hrm : r = m
      · subst hrm
        refine ⟨sortOtpsDesc rest, ?_⟩
        simp only [sortOtpsDesc]
        apply head_insertDesc_of_ge
        intro s hs
        have hs' : s ∈ rest := mem_sortOtpsDesc.mp hs
        rcases hmax s (List.mem_cons_of_mem _ hs') with h | h
        · simp [h]
        · exact Nat.le_of_lt h
      · have hmem' : m ∈ rest := by
          rcases List.mem_cons.mp hmem with h | h
          · exact absurd h.symm hrm
          · exact h
        have hmax' : ∀ s ∈ rest, s = m ∨ s.createdAt < m.createdAt :=
          fun s hs => hmax s (List.mem_cons_of_mem _ hs)
        obtain ⟨t, ht⟩ := ih hmem' hmax'
        have hr : r.createdAt < m.createdAt := by
          rcases hmax r (List.mem_cons_self ..) with h | h
          · exact absurd h hrm
          · exact h
        refine ⟨insertDesc r t, ?_⟩
        simp only [sortOtpsDesc, ht, insertDesc, if_neg (Nat.not_le.mpr hr)]

/-! ## POST /signup  (`src/NoteApp/app.js`, lines 144-169, and the variant
in `src/unnamed/part_000`, lines 156-186) -/

/-- The `POST /signup` handler of `src/NoteApp/app.js`.  The random 6-digit
code `otpCode`, the fresh document id `newId` and the clock reading `now`
are external inputs.  It creates an OTP record, sends the mail, and stores
the email as the session's pending identity; it never checks the User
collection.  Returns the updated session and store and the mail sent. -/
def signup (email otpCode : String) (newId now : Nat)
    (sess : Session) (store : Store) : Session × Store × Mail :=
  let rec0 : OtpRecord :=
    { id := newId, userIdentifier := email, otp := otpCode, createdAt := now }
  ({ sess with userIdentifier := some email },
   { store with otps := store.otps ++ [rec0] },
   { recipient := email, subject := "Your OTP Code",
     text := "Your OTP is " ++ otpCode ++ "." })

/-- Outcome of the variant signup handler. -/
inductive SignupVariantResult where
  | emailAlreadyRegistered
  | redirectVerifyOtp
deriving Repr, DecidableEq

/-- The `POST /signup` handler of the `src/unnamed/part_000` variant: it
first runs `User.findOne({email})` and answers
"Email already registered. Please login." without any side effect when a
User with that email exists; otherwise it behaves like `signup`.  The list
of mails sent is returned ( empty when the signup is refused). -/
def signupVariant (email otpCode : String) (newId now : Nat)
    (sess : Session) (store : Store) :
    SignupVariantResult × Session × Store × List Mail :=
  match store.users.find? (fun u => u.email == some email) with
  | some _ => (.emailAlreadyRegistered, sess, store, [])
  | none =>
      let out := signup email otpCode newId now sess store
      (.redirectVerifyOtp, out.1, out.2.1, [out.2.2])

/-! ## POST /set-password  (`src/NoteApp/app.js`, lines 223-231) -/

/-- The `POST /set-password` handler.  The bcrypt hash `hashed` of the
submitted password and the fresh user id `newUserId` are external inputs.
The handler performs NO check on the session: it unconditionally creates a
User whose email is `req.session.tempUserIdentifier` (possibly `undefined`)
and authenticates the session as that user. -/
def setPassword (hashed : String) (newUserId : Nat)
    (sess : Session) (store : Store) : Session × Store :=
  let user : User :=
    { id := newUserId, email := sess.tempUserIdentifier, password := hashed }
  ({ sess with userId := some newUserId },
   { store with users := store.users ++ [user] })

/-! ## POST /login  (`src/NoteApp/app.js`, lines 236-246) -/

/-- Outcome of `POST /login`: "No user", "Invalid Password", or the
redirect to `/notes` after authentication. -/
inductive LoginResult where
  | noUser
  | invalidPassword
  | redirectNotes
deriving Repr, DecidableEq

/-- The `POST /login` handler.  `bcryptCompare submitted storedHash` stands
for `bcrypt.compare`; the store is read-only here, so only the session is
returned next to the result. -/
def login (email password : String) (bcryptCompare : String → String → Bool)
    (sess : Session) (store : Store) : LoginResult × Session :=
  match store.users.find? (fun u => u.email == some email) with
  | none => (.noUser, sess)
  | some user =>
      if bcryptCompare password user.password then
        (.redirectNotes, { sess with userId := some user.id })
      else
        (.invalidPassword, sess)

/-! ## Note handlers  (`src/NoteApp/app.js`, lines 91-138) -/

/-- Outcome of a GET/PUT/DELETE on `/notes/:id`: the 404 page rendered with
"Note not found!", the show page for a note, or the redirect to `/notes`
after a successful update/delete. -/
inductive NoteResult where
  | notFound
  | showPage (n : Note)
  | redirectNotes
deriving Repr, DecidableEq

/-- The query predicate `{ _id: req.params.id, user: req.session.userId }`. -/
def noteMatch (noteId uid : Nat) (n : Note) : Bool :=
  n.id == noteId && n.user == uid

/-- `Note.findOneAndUpdate(filter, update, {new:true})`: update the first
matching document in place, returning the updated document if any. -/
def updateFirst (p : Note → Bool) (f : Note → Note) :
    List Note → Option Note × List Note
  | [] => (none, [])
  | n :: rest =>
      if p n then (some (f n), f n :: rest)
      else
        let out := updateFirst p f rest
        (out.1, n :: out.2)

/-- `Note.findOneAndDelete(filter)`: remove the first matching document,
returning it if any. -/
def deleteFirst (p : Note → Bool) :
    List Note → Option Note × List Note
  | [] => (none, [])
  | n :: rest =>
      if p n then (some n, rest)
      else
        let out := deleteFirst p rest
        (out.1, n :: out.2)

/-- `GET /notes/:id`: `findOne` on id and owner; 404 when absent. -/
def getNote (noteId uid : Nat) (store : Store) : NoteResult :=
  match store.notes.find? (noteMatch noteId uid) with
  | none => .notFound
  | some n => .showPage n

/-- `PUT /notes/:id`: `findOneAndUpdate` on id and owner with the new title
and content; 404 when absent, else redirect. -/
def updateNote (noteId uid : Nat) (title content : String) (store : Store) :
    NoteResult × Store :=
  match updateFirst (noteMatch noteId uid)
      (fun n => { n with title := title, content := content }) store.notes with
  | (none, notes2) => (.notFound, { store with notes := notes2 })
  | (some _, notes2) => (.redirectNotes, { store with notes := notes2 })

/-- `DELETE /notes/:id`: `findOneAndDelete` on id and owner; 404 when
absent, else redirect. -/
def deleteNote (noteId uid : Nat) (store : Store) : NoteResult × Store :=
  match deleteFirst (noteMatch noteId uid) store.notes with
  | (none, notes2) => (.notFound, { store with notes := notes2 })
  | (some _, notes2) => (.redirectNotes, { store with notes := notes2 })

/-! ## Lemmas about `deleteById` -/

/-- When the ids in `l` are pairwise distinct and `m ∈ l`, deleting by
`m.id` removes exactly `m`: `m` is gone, every other element survives,
nothing new appears, and the length drops by one. -/
theorem deleteById_spec {m : OtpRecord} {l : List OtpRecord}
    (hp : l.Pairwise (fun a b => a.id ≠ b.id)) (hm : m ∈ l) :
    m ∉ deleteById m.id l ∧
    (∀ r ∈ l, r ≠ m → r ∈ deleteById m.id l) ∧
    (∀ r ∈ deleteById m.id l, r ∈ l) ∧
    (deleteById m.id l).length + 1 = l.length := by
  induction l with
  | nil => cases hm
  | cons r rest ih =>
      rw [List.pairwise_cons] at hp
      obtain ⟨hhead, htail⟩ := hp
      by_cases hid : r.id = m.id
      · have hrm : r = m := by
          rcases List.mem_cons.mp hm with h | h
          · exact h.symm
          · exact absurd hid (hhead m h)
        subst hrm
        have hnot : r ∉ rest := fun h => (hhead r h) rfl
        refine ⟨?_, ?_, ?_, ?_⟩
        · simpa [deleteById, hid] using hnot
        · intro s hs hsm
          rcases List.mem_cons.mp hs with h | h
          · exact absurd h hsm
          · simpa [deleteById, hid] using h
        · intro s hs
          rw [deleteById, if_pos hid] at hs
          exact List.mem_cons_of_mem _ hs
        · simp [deleteById, hid]
      · have hm' : m ∈ rest := by
          rcases List.mem_cons.mp hm with h | h
          · exact absurd (congrArg OtpRecord.id h).symm hid
          · exact h
        obtain ⟨ih1, ih2, ih3, ih4⟩ := ih htail hm'
        rw [deleteById, if_neg hid]
        refine ⟨?_, ?_, ?_, ?_⟩
        · intro h
          rcases List.mem_cons.mp h with h | h
          · exact hid (congrArg OtpRecord.id h).symm
          · exact ih1 h
        · intro s hs hsm
          rcases List.mem_cons.mp hs with h | h
          · exact h ▸ List.mem_cons_self ..
          · exact List.mem_cons_of_mem _ (ih2 s h hsm)
        · intro s hs
          rcases List.mem_cons.mp hs with h | h
          · exact h ▸ List.mem_cons_self ..
          · exact List.mem_cons_of_mem _ (ih3 s h)
        · simpa using ih4

/-! ## Lemmas about `updateFirst` and `deleteFirst` -/

theorem updateFirst_of_none {p : Note → Bool} {f : Note → Note}
    {l : List Note} (h : ∀ n ∈ l, ¬ p n) :
    updateFirst p f l = (none, l) := by
  induction l with
  | nil => rfl
  | cons n rest ih =>
      have hn : ¬ p n := h n (List.mem_cons_self ..)
      have := ih fun m hm => h m (List.mem_cons_of_mem _ hm)
      simp [updateFirst, hn, this]

theorem deleteFirst_of_none {p : Note → Bool} {l : List Note}
    (h : ∀ n ∈ l, ¬ p n) :
    deleteFirst p l = (none, l) := by
  induction l with
  | nil => rfl
  | cons n rest ih =>
      have hn : ¬ p n := h n (List.mem_cons_self ..)
      have := ih fun m hm => h m (List.mem_cons_of_mem _ hm)
      simp [deleteFirst, hn, this]

/-- Frame property of `updateFirst`: elements not satisfying `p` survive
unchanged, every output element is an input element or the image under `f`
of an input element satisfying `p`, and the length is preserved. -/
theorem updateFirst_frame (p : Note → Bool) (f : Note → Note)
    (l : List Note) :
    (∀ n ∈ l, ¬ p n → n ∈ (updateFirst p f l).2) ∧
    (∀ n ∈ (updateFirst p f l).2, n ∈ l ∨ ∃ m ∈ l, p m ∧ n = f m) ∧
    (updateFirst p f l).2.length = l.length := by
  induction l with
  | nil => exact ⟨by simp, by simp [updateFirst], rfl⟩
  | cons n rest ih =>
      obtain ⟨ih1, ih2, ih3⟩ := ih
      by_cases hn : p n
      · refine ⟨?_, ?_, ?_⟩
        · intro m hm hmp
          rcases List.mem_cons.mp hm with h | h
          · exact absurd (h ▸ hn) hmp
          · simp only [updateFirst, if_pos hn]
            exact List.mem_cons_of_mem _ h
        · intro m hm
          simp only [updateFirst, if_pos hn] at hm
          rcases List.mem_cons.mp hm with h | h
          · exact Or.inr ⟨n, List.mem_cons_self .., hn, h⟩
          · exact Or.inl (List.mem_cons_of_mem _ h)
        · simp [updateFirst, hn]
      · refine ⟨?_, ?_, ?_⟩
        · intro m hm hmp
          rcases List.mem_cons.mp hm with h | h
          · simp only [updateFirst, if_neg hn]
            exact h ▸ List.mem_cons_self ..
          · simp only [updateFirst, if_neg hn]
            exact List.mem_cons_of_mem _ (ih1 m h hmp)
        · intro m hm
          simp only [updateFirst, if_neg hn] at hm
          rcases List.mem_cons.mp hm with h | h
          · exact Or.inl (h ▸ List.mem_cons_self ..)
          · rcases ih2 m h with h' | ⟨m', hm', hpm', he⟩
            · exact Or.inl (List.mem_cons_of_mem _ h')
            · exact Or.inr ⟨m', List.mem_cons_of_mem _ hm', hpm', he⟩
        · simp only [updateFirst, if_neg hn]
          simpa using ih3

/-- Frame property of `deleteFirst`: elements not satisfying `p` survive,
every output element is an input element, and at most one element is
removed. -/
theorem deleteFirst_frame (p : Note → Bool) (l : List Note) :
    (∀ n ∈ l, ¬ p n → n ∈ (deleteFirst p l).2) ∧
    (∀ n ∈ (deleteFirst p l).2, n ∈ l) ∧
    l.length ≤ (deleteFirst p l).2.length + 1 := by
  induction l with
  | nil => exact ⟨by simp, by simp [deleteFirst], by simp [deleteFirst]⟩
  | cons n rest ih =>
      obtain ⟨ih1, ih2, ih3⟩ := ih
      by_cases hn : p n
      · refine ⟨?_, ?_, ?_⟩
        · intro m hm hmp
          rcases List.mem_cons.mp hm with h | h
          · exact absurd (h ▸ hn) hmp
          · simpa [deleteFirst, hn] using h
        · intro m hm
          simp only [deleteFirst, if_pos hn] at hm
          exact List.mem_cons_of_mem _ hm
        · simp [deleteFirst, hn]
      · refine ⟨?_, ?_, ?_⟩
        · intro m hm hmp
          rcases List.mem_cons.mp hm with h | h
          · simp only [deleteFirst, if_neg hn]
            exact h ▸ List.mem_cons_self ..
          · simp only [deleteFirst, if_neg hn]
            exact List.mem_cons_of_mem _ (ih1 m h hmp)
        · intro m hm
          simp only [deleteFirst, if_neg hn] at hm
          rcases List.mem_cons.mp hm with h | h
          · exact h ▸ List.mem_cons_self ..
          · exact List.mem_cons_of_mem _ (ih2 m h)
        · simp only [deleteFirst, if_neg hn, List.length_cons]
          omega

/-! ## Reduction of `verifyOtp` when the sorted fetch is known -/

/-- With a pending email and a known head of the sorted fetch, `verifyOtp`
reduces to the comparison against that head. -/
theorem verifyOtp_reduce {email : String} {sess : Session} {store : Store}
    (hsess : sess.userIdentifier = some email) (hne : email ≠ "")
    {m : OtpRecord} {t : List OtpRecord}
    (ht : sortOtpsDesc (otpRecordsFor email store) = m :: t)
    (otp : String) :
    verifyOtp otp sess store =
      if m.otp ≠ otp then (.invalidOtp, sess, store)
      else (.redirectSetPassword,
            { sess with tempUserIdentifier := some email },
            { store with otps := deleteById m.id store.otps }) := by
  unfold verifyOtp
  rw [hsess]
  simp [strFalsy, hne, ht]

/-- A strict-latest record among an identity's records heads the sorted
fetch. -/
theorem sorted_fetch_head {email : String} {store : Store} {m : OtpRecord}
    (hmem : m ∈ otpRecordsFor email store)
    (hmax : ∀ s ∈ otpRecordsFor email store,
      s = m ∨ s.createdAt < m.createdAt) :
    ∃ t, sortOtpsDesc (otpRecordsFor email store) = m :: t :=
  head_sortOtpsDesc hmem hmax

/-! ## Sample data used by the witnesses -/

/-- A session holding the pending email "a@x.com". -/
def wSession : Session :=
  { userId := none, userIdentifier := some "a@x.com", tempUserIdentifier := none }

/-- A store with two OTP records for "a@x.com" (ids 1 and 2, the newer one
created later), one record for another identity, one user and one note. -/
def wStore : Store :=
  { users := [{ id := 5, email := some "b@y.com", password := "hashB" }],
    otps := [{ id := 1, userIdentifier := "a@x.com", otp := "111111", createdAt := 1 },
             { id := 2, userIdentifier := "a@x.com", otp := "222222", createdAt := 2 },
             { id := 3, userIdentifier := "c@z.com", otp := "333333", createdAt := 3 }],
    notes := [{ id := 10, title := "t", content := "c", user := 5 }] }

/-- The newest OTP record of `wStore` for "a@x.com". -/
def wLatest : OtpRecord :=
  { id := 2, userIdentifier := "a@x.com", otp := "222222", createdAt := 2 }

/-! ## C1 -/

/-- C1 (counterexample): the claim "submitting the code of any older,
never-consumed record fails with a mismatch outcome" is false when an older
record carries the same code as the newest one.  Here both records for
"a@x.com" hold the code "123456"; the older record (id 1, createdAt 1) was
never consumed, yet submitting its code succeeds instead of yielding a
mismatch. -/
theorem verifyOtp_stale_code_collision_succeeds :
    ((verifyOtp "123456"
        { userId := none, userIdentifier := some "a@x.com",
          tempUserIdentifier := none }
        { users := [],
          otps := [{ id := 1, userIdentifier := "a@x.com", otp := "123456",
                     createdAt := 1 },
                   { id := 2, userIdentifier := "a@x.com", otp := "123456",
                     createdAt := 2 }],
          notes := [] }).1 = VerifyResult.redirectSetPassword) ∧
    ((verifyOtp "123456"
        { userId := none, userIdentifier := some "a@x.com",
          tempUserIdentifier := none }
        { users := [],
          otps := [{ id := 1, userIdentifier := "a@x.com", otp := "123456",
                     createdAt := 1 },
                   { id := 2, userIdentifier := "a@x.com", otp := "123456",
                     createdAt := 2 }],
          notes := [] }).1 ≠ VerifyResult.invalidOtp) := by
  decide

/-- C1 (amended): for a session with a pending email that has two or more
OtpRecords, `POST /verify-otp` compares the submitted code only against the
record with the greatest `createdAt`: submitting the newest record's code
succeeds, and submitting any code that differs from the newest record's
code — in particular the code of any older, never-consumed record whose
code differs from the newest one's — fails with a mismatch outcome. -/
theorem verifyOtp_latest_wins {email : String} {sess : Session}
    {store : Store} {m : OtpRecord}
    (hsess : sess.userIdentifier = some email) (hne : email ≠ "")
    (_hcount : 2 ≤ (otpRecordsFor email store).length)
    (hmem : m ∈ otpRecordsFor email store)
    (hmax : ∀ s ∈ otpRecordsFor email store,
      s = m ∨ s.createdAt < m.createdAt) :
    (verifyOtp m.otp sess store).1 = VerifyResult.redirectSetPassword ∧
    ∀ s ∈ otpRecordsFor email store, s.otp ≠ m.otp →
      (verifyOtp s.otp sess store).1 = VerifyResult.invalidOtp := by
  obtain ⟨t, ht⟩ := sorted_fetch_head hmem hmax
  constructor
  · rw [verifyOtp_reduce hsess hne ht m.otp, if_neg (fun h => h rfl)]
  · intro s _ hs
    rw [verifyOtp_reduce hsess hne ht s.otp, if_pos (fun h => hs h.symm)]

/-- C1 witness: the amended theorem applied to `wStore`, whose two records
for "a@x.com" carry distinct codes "111111" (older) and "222222" (newer). -/
theorem verifyOtp_latest_wins_witness :
    wSession.userIdentifier = some "a@x.com" ∧
    2 ≤ (otpRecordsFor "a@x.com" wStore).length ∧
    ((verifyOtp wLatest.otp wSession wStore).1
       = VerifyResult.redirectSetPassword ∧
     ∀ s ∈ otpRecordsFor "a@x.com" wStore, s.otp ≠ wLatest.otp →
       (verifyOtp s.otp wSession wStore).1 = VerifyResult.invalidOtp) :=
  ⟨by decide, by decide,
   verifyOtp_latest_wins (by decide) (by decide) (by decide) (by decide)
     (by decide)⟩

/-! ## C2 -/

/-- C2 (counterexample): the claim that a successful verification "replaces
the session's pending identity with a verified identity marker" is false:
after the correct code "654321" is accepted, the session still holds the
pending email in `userIdentifier` (the handler sets `tempUserIdentifier`
but never clears `userIdentifier`). -/
theorem verifyOtp_success_keeps_pending_identity :
    ((verifyOtp "654321"
        { userId := none, userIdentifier := some "a@x.com",
          tempUserIdentifier := none }
        { users := [],
          otps := [{ id := 1, userIdentifier := "a@x.com", otp := "654321",
                     createdAt := 4 }],
          notes := [] }).1 = VerifyResult.redirectSetPassword) ∧
    ((verifyOtp "654321"
        { userId := none, userIdentifier := some "a@x.com",
          tempUserIdentifier := none }
        { users := [],
          otps := [{ id := 1, userIdentifier := "a@x.com", otp := "654321",
                     createdAt := 4 }],
          notes := [] }).2.1.userIdentifier = some "a@x.com") := by
  decide

/-- C2 (amended): when the submitted code equals the code of the most
recent OtpRecord for the session's pending email, `POST /verify-otp`
deletes exactly that one record — every other OtpRecord, for this or other
identities, remains, and the User and Note collections are untouched — and
sets the session's verified identity marker to the pending email (the
pending identity itself remains set rather than being replaced), without
setting the authenticated user id. -/
theorem verifyOtp_match_consumes_latest {email : String} {sess : Session}
    {store : Store} {m : OtpRecord}
    (hsess : sess.userIdentifier = some email) (hne : email ≠ "")
    (hmem : m ∈ otpRecordsFor email store)
    (hmax : ∀ s ∈ otpRecordsFor email store,
      s = m ∨ s.createdAt < m.createdAt)
    (hids : store.otps.Pairwise (fun a b => a.id ≠ b.id)) :
    (verifyOtp m.otp sess store).1 = VerifyResult.redirectSetPassword ∧
    m ∉ (verifyOtp m.otp sess store).2.2.otps ∧
    (∀ r ∈ store.otps, r ≠ m → r ∈ (verifyOtp m.otp sess store).2.2.otps) ∧
    (∀ r ∈ (verifyOtp m.otp sess store).2.2.otps, r ∈ store.otps) ∧
    (verifyOtp m.otp sess store).2.2.otps.length + 1 = store.otps.length ∧
    (verifyOtp m.otp sess store).2.2.users = store.users ∧
    (verifyOtp m.otp sess store).2.2.notes = store.notes ∧
    (verifyOtp m.otp sess store).2.1.tempUserIdentifier = some email ∧
    (verifyOtp m.otp sess store).2.1.userIdentifier = some email ∧
    (verifyOtp m.otp sess store).2.1.userId = sess.userId := by
  obtain ⟨t, ht⟩ := sorted_fetch_head hmem hmax
  have hred := verifyOtp_reduce hsess hne ht m.otp
  rw [if_neg (fun h => h rfl)] at hred
  have hm : m ∈ store.otps := by
    have := hmem
    rw [otpRecordsFor, List.mem_filter] at this
    exact this.1
  obtain ⟨d1, d2, d3, d4⟩ := deleteById_spec hids hm
  rw [hred]
  exact ⟨rfl, d1, d2, d3, d4, rfl, rfl, rfl, hsess, rfl⟩

/-- C2 witness: the amended theorem applied to `wStore` with the correct
newest code "222222". -/
theorem verifyOtp_match_consumes_latest_witness :
    wSession.userIdentifier = some "a@x.com" ∧
    ((verifyOtp wLatest.otp wSession wStore).1
       = VerifyResult.redirectSetPassword ∧
     wLatest ∉ (verifyOtp wLatest.otp wSession wStore).2.2.otps ∧
     (∀ r ∈ wStore.otps, r ≠ wLatest →
        r ∈ (verifyOtp wLatest.otp wSession wStore).2.2.otps) ∧
     (∀ r ∈ (verifyOtp wLatest.otp wSession wStore).2.2.otps,
        r ∈ wStore.otps) ∧
     (verifyOtp wLatest.otp wSession wStore).2.2.otps.length + 1
       = wStore.otps.length ∧
     (verifyOtp wLatest.otp wSession wStore).2.2.users = wStore.users ∧
     (verifyOtp wLatest.otp wSession wStore).2.2.notes = wStore.notes ∧
     (verifyOtp wLatest.otp wSession wStore).2.1.tempUserIdentifier
       = some "a@x.com" ∧
     (verifyOtp wLatest.otp wSession wStore).2.1.userIdentifier
       = some "a@x.com" ∧
     (verifyOtp wLatest.otp wSession wStore).2.1.userId
       = wSession.userId) :=
  ⟨by decide,
   verifyOtp_match_consumes_latest (by decide) (by decide) (by decide)
     (by decide) (by decide)⟩

/-! ## C4 -/

/-- C4: for a session with a pending email and at least one OtpRecord for
it, when the submitted code differs from the most recent record's code,
`POST /verify-otp` answers the mismatch outcome ("Invalid OTP"), deletes no
OtpRecord, and leaves the session entirely unchanged (so no verified
identity and no authenticated user id is set). -/
theorem verifyOtp_mismatch_preserves_state {email : String} {sess : Session}
    {store : Store} {m : OtpRecord} {code : String}
    (hsess : sess.userIdentifier = some email) (hne : email ≠ "")
    (hmem : m ∈ otpRecordsFor email store)
    (hmax : ∀ s ∈ otpRecordsFor email store,
      s = m ∨ s.createdAt < m.createdAt)
    (hcode : code ≠ m.otp) :
    verifyOtp code sess store = (VerifyResult.invalidOtp, sess, store) := by
  obtain ⟨t, ht⟩ := sorted_fetch_head hmem hmax
  rw [verifyOtp_reduce hsess hne ht code, if_pos (fun h => hcode h.symm)]

/-- C4 witness: submitting "999999" against `wStore` (whose newest record
for "a@x.com" holds "222222") yields the mismatch outcome and changes
nothing. -/
theorem verifyOtp_mismatch_preserves_state_witness :
    wSession.userIdentifier = some "a@x.com" ∧
    verifyOtp "999999" wSession wStore
      = (VerifyResult.invalidOtp, wSession, wStore) :=
  ⟨by decide,
   @verifyOtp_mismatch_preserves_state "a@x.com" wSession wStore wLatest
     "999999" (by decide) (by decide) (by decide) (by decide) (by decide)⟩

/-! ## C7 -/

/-- C7: `POST /verify-otp` fails with the no-pending-identity outcome
("Session expired or email not found.") when the session holds no pending
email, and with the no-OTP-found outcome ("No OTP record found.") when the
session holds a pending email for which no OtpRecord exists; in both cases
the store and the session are returned unchanged. -/
theorem verifyOtp_no_pending_no_record_errors (otp email : String)
    (sess : Session) (store : Store) :
    (sess.userIdentifier = none →
      verifyOtp otp sess store = (VerifyResult.sessionExpired, sess, store)) ∧
    (sess.userIdentifier = some email → email ≠ "" →
      (∀ r ∈ store.otps, r.userIdentifier ≠ email) →
      verifyOtp otp sess store = (VerifyResult.noOtpFound, sess, store)) := by
  constructor
  · intro h
    unfold verifyOtp
    rw [h]
    simp [strFalsy]
  · intro h hne hnone
    have hfil : otpRecordsFor email store = [] := by
      rw [otpRecordsFor]
      rw [List.filter_eq_nil_iff]
      intro r hr
      simpa using hnone r hr
    unfold verifyOtp
    rw [h]
    simp [strFalsy, hne, hfil, sortOtpsDesc]

/-- C7 witness: a session with no pending email, and `wSession` against a
store holding no record for "a@x.com". -/
theorem verifyOtp_no_pending_no_record_errors_witness :
    (({ userId := none, userIdentifier := none,
        tempUserIdentifier := none : Session }).userIdentifier = none ∧
     verifyOtp "111111"
       { userId := none, userIdentifier := none, tempUserIdentifier := none }
       wStore
       = (VerifyResult.sessionExpired,
          { userId := none, userIdentifier := none,
            tempUserIdentifier := none }, wStore)) ∧
    (verifyOtp "111111" wSession
       { users := [], otps := [{ id := 3, userIdentifier := "c@z.com",
                                 otp := "333333", createdAt := 3 }],
         notes := [] }
       = (VerifyResult.noOtpFound, wSession,
          { users := [], otps := [{ id := 3, userIdentifier := "c@z.com",
                                    otp := "333333", createdAt := 3 }],
            notes := [] })) :=
  ⟨⟨rfl,
    (verifyOtp_no_pending_no_record_errors "111111" "a@x.com"
      { userId := none, userIdentifier := none, tempUserIdentifier := none }
      wStore).1 rfl⟩,
   (verifyOtp_no_pending_no_record_errors "111111" "a@x.com" wSession
      { users := [], otps := [{ id := 3, userIdentifier := "c@z.com",
                                otp := "333333", createdAt := 3 }],
        notes := [] }).2 (by decide) (by decide) (by decide)⟩

/-! ## C3 -/

/-- C3 (code evaluated at the failing input): `POST /set-password` performs
no check whatsoever on the session's verified identity.  Starting from a
fresh session (no pending, no verified identity) and an empty store, it
hashes the password, creates a User whose email is the absent
`tempUserIdentifier`, and authenticates the session as that user — instead
of failing with the spec's `NoVerifiedIdentity` and creating no User. -/
theorem setPassword_unverified_creates_user :
    setPassword "h4shed" 7
      { userId := none, userIdentifier := none, tempUserIdentifier := none }
      { users := [], otps := [], notes := [] }
    = ({ userId := some 7, userIdentifier := none,
         tempUserIdentifier := none },
       { users := [{ id := 7, email := none, password := "h4shed" }],
         otps := [], notes := [] }) :=
  rfl

/-! ## C5 -/

/-- C5 (counterexample): "exactly one OTP record exists with the submitted
email immediately after request" is false when an earlier record for the
same email already exists: after a signup for "a@x.com" against a store
already holding one record for "a@x.com", two records exist. -/
theorem signup_second_record_two_exist :
    (otpRecordsFor "a@x.com"
      (signup "a@x.com" "222222" 2 1
        { userId := none, userIdentifier := none, tempUserIdentifier := none }
        { users := [],
          otps := [{ id := 1, userIdentifier := "a@x.com", otp := "111111",
                     createdAt := 0 }],
          notes := [] }).2.1).length = 2 := by
  decide

/-- C5 (amended): every signup request adds exactly one OTP record for the
submitted email — the count of records for that email grows by exactly one,
and equals one when no record existed before — and the added record carries
the submitted email, the generated code and the current timestamp, the code
in the mail sent to that email being exactly the record's code. -/
theorem signup_adds_exactly_one_record (email otpCode : String)
    (newId now : Nat) (sess : Session) (store : Store) :
    (otpRecordsFor email (signup email otpCode newId now sess store).2.1).length
      = (otpRecordsFor email store).length + 1 ∧
    (otpRecordsFor email store = [] →
      (otpRecordsFor email
        (signup email otpCode newId now sess store).2.1).length = 1) ∧
    (signup email otpCode newId now sess store).2.2.recipient = email ∧
    (∃ r ∈ (signup email otpCode newId now sess store).2.1.otps,
       r.id = newId ∧ r.userIdentifier = email ∧ r.otp = otpCode ∧
       r.createdAt = now ∧
       (signup email otpCode newId now sess store).2.2.text
         = "Your OTP is " ++ r.otp ++ ".") ∧
    (signup email otpCode newId now sess store).1.userIdentifier
      = some email := by
  refine ⟨?_, ?_, rfl, ?_, rfl⟩
  · simp [signup, otpRecordsFor, List.filter_append]
  · intro h
    simp [signup, otpRecordsFor, List.filter_append]
    simpa [otpRecordsFor] using h
  · exact ⟨{ id := newId, userIdentifier := email, otp := otpCode,
             createdAt := now },
           by simp [signup], rfl, rfl, rfl, rfl, rfl⟩

/-- C5 witness: a signup for "a@x.com" against the empty store leaves
exactly one record for "a@x.com". -/
theorem signup_adds_exactly_one_record_witness :
    otpRecordsFor "a@x.com" { users := [], otps := [], notes := [] } = [] ∧
    (otpRecordsFor "a@x.com"
      (signup "a@x.com" "123456" 1 0
        { userId := none, userIdentifier := none, tempUserIdentifier := none }
        { users := [], otps := [], notes := [] }).2.1).length = 1 :=
  ⟨by decide,
   (signup_adds_exactly_one_record "a@x.com" "123456" 1 0
      { userId := none, userIdentifier := none, tempUserIdentifier := none }
      { users := [], otps := [], notes := [] }).2.1 (by decide)⟩

/-! ## C8 -/

/-- `List.find?` returns the distinguished element when it is the only one
satisfying the predicate. -/
theorem find?_eq_of_unique {α : Type} (p : α → Bool) {l : List α} {a : α}
    (ha : a ∈ l) (hpa : p a = true)
    (huniq : ∀ b ∈ l, p b = true → b = a) :
    l.find? p = some a := by
  induction l with
  | nil => cases ha
  | cons x rest ih =>
      by_cases hx : p x = true
      · have hxa : x = a := huniq x (List.mem_cons_self ..) hx
        subst hxa
        simp [List.find?_cons_of_pos, hx]
      · have ha' : a ∈ rest := by
          rcases List.mem_cons.mp ha with h | h
          · exact absurd (h ▸ hpa) hx
          · exact h
        rw [List.find?_cons_of_neg _ (by simpa using hx)]
        exact ih ha' (fun b hb hpb => huniq b (List.mem_cons_of_mem _ hb) hpb)

/-- C8: `POST /login` answers "No user" when no User record matches the
submitted email; "Invalid Password" when the (unique) matching User's
stored hash fails the bcrypt comparison, leaving the session unchanged;
and on success sets the session's authenticated user id to that User's id —
the handler never touches the OTP collection or any store (it only reads
the User collection), so no OTP step is involved. -/
theorem login_outcomes (email password : String)
    (bcryptCompare : String → String → Bool) (sess : Session)
    (store : Store) :
    ((∀ v ∈ store.users, v.email ≠ some email) →
      login email password bcryptCompare sess store
        = (LoginResult.noUser, sess)) ∧
    (∀ u ∈ store.users, u.email = some email →
      (∀ v ∈ store.users, v.email = some email → v = u) →
      ((bcryptCompare password u.password = false →
         login email password bcryptCompare sess store
           = (LoginResult.invalidPassword, sess)) ∧
       (bcryptCompare password u.password = true →
         login email password bcryptCompare sess store
           = (LoginResult.redirectNotes,
              { sess with userId := some u.id })))) := by
  constructor
  · intro hnone
    have hfind : store.users.find? (fun u => u.email == some email) = none := by
      rw [List.find?_eq_none]
      intro v hv
      simpa using hnone v hv
    simp [login, hfind]
  · intro u hu hue huniq
    have hfind : store.users.find? (fun u => u.email == some email) = some u :=
      find?_eq_of_unique _ hu (by simpa using hue)
        (fun b hb hpb => huniq b hb (by simpa using hpb))
    constructor
    · intro hcmp
      simp [login, hfind, hcmp]
    · intro hcmp
      simp [login, hfind, hcmp]

/-- C8 witness: against `wStore` (one user, id 5, email "b@y.com"): an
unknown email gives "No user", a failing comparison gives
"Invalid Password", a succeeding one authenticates the session as user 5. -/
theorem login_outcomes_witness :
    (login "nobody@x.com" "pw" (fun _ _ => true) wSession wStore
       = (LoginResult.noUser, wSession)) ∧
    (login "b@y.com" "pw" (fun _ _ => false) wSession wStore
       = (LoginResult.invalidPassword, wSession)) ∧
    (login "b@y.com" "pw" (fun _ _ => true) wSession wStore
       = (LoginResult.redirectNotes,
          { userId := some 5, userIdentifier := some "a@x.com",
            tempUserIdentifier := none })) :=
  ⟨(login_outcomes "nobody@x.com" "pw" (fun _ _ => true) wSession wStore).1
     (by decide),
   ((login_outcomes "b@y.com" "pw" (fun _ _ => false) wSession wStore).2
      { id := 5, email := some "b@y.com", password := "hashB" }
      (by decide) (by decide) (by decide)).1 rfl,
   ((login_outcomes "b@y.com" "pw" (fun _ _ => true) wSession wStore).2
      { id := 5, email := some "b@y.com", password := "hashB" }
      (by decide) (by decide) (by decide)).2 rfl⟩

/-! ## C10 -/

/-- C10: in the `src/unnamed/part_000` variant, a signup for an email that
already has a User record answers "Email already registered" with no side
effect — store, session and sent mails are unchanged/empty — while the
`src/NoteApp/app.js` handler on the same input does create an OTP record,
so the two variants are not equivalent on this input. -/
theorem signupVariant_existing_email_no_effect (email otpCode : String)
    (newId now : Nat) (sess : Session) (store : Store)
    (hex : ∃ u ∈ store.users, u.email = some email) :
    signupVariant email otpCode newId now sess store
      = (SignupVariantResult.emailAlreadyRegistered, sess, store, []) ∧
    (signup email otpCode newId now sess store).2.1.otps.length
      = store.otps.length + 1 := by
  obtain ⟨u, hu, hue⟩ := hex
  have hsome : (store.users.find? (fun w => w.email == some email)).isSome := by
    rw [List.find?_isSome]
    exact ⟨u, hu, by simpa using hue⟩
  obtain ⟨v, hv⟩ := Option.isSome_iff_exists.mp hsome
  constructor
  · simp [signupVariant, hv]
  · simp [signup]

/-- C10 witness: signing up "b@y.com" (already a registered user in
`wStore`) through the variant changes nothing, while the main handler
would append an OTP record. -/
theorem signupVariant_existing_email_no_effect_witness :
    (∃ u ∈ wStore.users, u.email = some "b@y.com") ∧
    (signupVariant "b@y.com" "444444" 9 9 wSession wStore
       = (SignupVariantResult.emailAlreadyRegistered, wSession, wStore, []) ∧
     (signup "b@y.com" "444444" 9 9 wSession wStore).2.1.otps.length
       = wStore.otps.length + 1) :=
  ⟨by decide,
   signupVariant_existing_email_no_effect "b@y.com" "444444" 9 9 wSession
     wStore (by decide)⟩

/-! ## C6 -/

theorem noteMatch_eq_true {noteId uid : Nat} {n : Note} :
    noteMatch noteId uid n = true ↔ n.id = noteId ∧ n.user = uid := by
  simp [noteMatch]

theorem updateNote_snd (noteId uid : Nat) (title content : String)
    (store : Store) :
    (updateNote noteId uid title content store).2
      = { store with notes := (updateFirst (noteMatch noteId uid)
            (fun n => { n with title := title, content := content })
            store.notes).2 } := by
  unfold updateNote
  rcases h : updateFirst (noteMatch noteId uid)
      (fun n => { n with title := title, content := content })
      store.notes with ⟨r, notes2⟩
  cases r <;> simp [h]

theorem deleteNote_snd (noteId uid : Nat) (store : Store) :
    (deleteNote noteId uid store).2
      = { store with
          notes := (deleteFirst (noteMatch noteId uid) store.notes).2 } := by
  unfold deleteNote
  rcases h : deleteFirst (noteMatch noteId uid) store.notes with ⟨r, notes2⟩
  cases r <;> simp [h]

/-- C6: a GET/PUT/DELETE on `/notes/:id` for a note that exists but belongs
to another user yields exactly the same outcome as the same request for an
id no note carries: the same not-found response, with the store unchanged —
so ownership cannot be probed. -/
theorem notes_foreign_owner_indistinguishable (store : Store)
    (uid noteId freshId : Nat) (title content : String)
    (_hforeign : ∃ n ∈ store.notes, n.id = noteId ∧ n.user ≠ uid)
    (hnotmine : ∀ n ∈ store.notes, ¬(n.id = noteId ∧ n.user = uid))
    (hfresh : ∀ n ∈ store.notes, n.id ≠ freshId) :
    (getNote noteId uid store = NoteResult.notFound ∧
     getNote freshId uid store = NoteResult.notFound) ∧
    (updateNote noteId uid title content store
       = (NoteResult.notFound, store) ∧
     updateNote freshId uid title content store
       = (NoteResult.notFound, store)) ∧
    (deleteNote noteId uid store = (NoteResult.notFound, store) ∧
     deleteNote freshId uid store = (NoteResult.notFound, store)) := by
  have hp1 : ∀ n ∈ store.notes, ¬ noteMatch noteId uid n = true :=
    fun n hn h => hnotmine n hn (noteMatch_eq_true.mp h)
  have hp2 : ∀ n ∈ store.notes, ¬ noteMatch freshId uid n = true :=
    fun n hn h => hfresh n hn (noteMatch_eq_true.mp h).1
  have hf1 : store.notes.find? (noteMatch noteId uid) = none :=
    List.find?_eq_none.mpr hp1
  have hf2 : store.notes.find? (noteMatch freshId uid) = none :=
    List.find?_eq_none.mpr hp2
  have hu1 := updateFirst_of_none
    (f := fun n => { n with title := title, content := content }) hp1
  have hu2 := updateFirst_of_none
    (f := fun n => { n with title := title, content := content }) hp2
  have hd1 := deleteFirst_of_none hp1
  have hd2 := deleteFirst_of_none hp2
  refine ⟨⟨?_, ?_⟩, ⟨?_, ?_⟩, ⟨?_, ?_⟩⟩ <;>
    simp [getNote, updateNote, deleteNote, hf1, hf2, hu1, hu2, hd1, hd2]

/-- C6 witness: in `wStore` the note with id 10 belongs to user 5; for the
authenticated user 7 it is indistinguishable from the unused id 99. -/
theorem notes_foreign_owner_indistinguishable_witness :
    (∃ n ∈ wStore.notes, n.id = 10 ∧ n.user ≠ 7) ∧
    ((getNote 10 7 wStore = NoteResult.notFound ∧
      getNote 99 7 wStore = NoteResult.notFound) ∧
     (updateNote 10 7 "x" "y" wStore = (NoteResult.notFound, wStore) ∧
      updateNote 99 7 "x" "y" wStore = (NoteResult.notFound, wStore)) ∧
     (deleteNote 10 7 wStore = (NoteResult.notFound, wStore) ∧
      deleteNote 99 7 wStore = (NoteResult.notFound, wStore))) :=
  ⟨by decide,
   notes_foreign_owner_indistinguishable wStore 7 10 99 "x" "y" (by decide)
     (by decide) (by decide)⟩

/-! ## C9 -/

/-- C9: a PUT or DELETE on `/notes/:id` touches at most the single note
matching both the path id and the session's user id: the User and OTP
collections are unchanged, every non-matching note survives unchanged, an
update introduces nothing but (possibly) the rewritten matching note and
preserves the number of notes, and a delete only removes (at most one)
existing note. -/
theorem notes_update_delete_frame (store : Store) (noteId uid : Nat)
    (title content : String) :
    ((updateNote noteId uid title content store).2.users = store.users) ∧
    ((updateNote noteId uid title content store).2.otps = store.otps) ∧
    (∀ n ∈ store.notes, ¬(n.id = noteId ∧ n.user = uid) →
       n ∈ (updateNote noteId uid title content store).2.notes) ∧
    (∀ n ∈ (updateNote noteId uid title content store).2.notes,
       n ∈ store.notes ∨ (n.id = noteId ∧ n.user = uid)) ∧
    ((updateNote noteId uid title content store).2.notes.length
       = store.notes.length) ∧
    ((deleteNote noteId uid store).2.users = store.users) ∧
    ((deleteNote noteId uid store).2.otps = store.otps) ∧
    (∀ n ∈ store.notes, ¬(n.id = noteId ∧ n.user = uid) →
       n ∈ (deleteNote noteId uid store).2.notes) ∧
    (∀ n ∈ (deleteNote noteId uid store).2.notes, n ∈ store.notes) ∧
    (store.notes.length ≤ (deleteNote noteId uid store).2.notes.length + 1)
    := by
  obtain ⟨u1, u2, u3⟩ := updateFirst_frame (noteMatch noteId uid)
    (fun n => { n with title := title, content := content }) store.notes
  obtain ⟨e1, e2, e3⟩ := deleteFirst_frame (noteMatch noteId uid) store.notes
  rw [updateNote_snd, deleteNote_snd]
  refine ⟨rfl, rfl, ?_, ?_, u3, rfl, rfl, ?_, e2, e3⟩
  · intro n hn hnp
    exact u1 n hn (fun h => hnp (noteMatch_eq_true.mp h))
  · intro n hn
    rcases u2 n hn with h | ⟨m, hm, hpm, he⟩
    · exact Or.inl h
    · right
      have hmm := noteMatch_eq_true.mp hpm
      subst he
      exact ⟨hmm.1, hmm.2⟩
  · intro n hn hnp
    exact e1 n hn (fun h => hnp (noteMatch_eq_true.mp h))

/-- C9 witness: updating or deleting note 10 as user 7 (not its owner)
leaves the owner's note in place. -/
theorem notes_update_delete_frame_witness :
    ({ id := 10, title := "t", content := "c", user := 5 } : Note)
        ∈ (updateNote 10 7 "x" "y" wStore).2.notes ∧
    ({ id := 10, title := "t", content := "c", user := 5 } : Note)
        ∈ (deleteNote 10 7 wStore).2.notes :=
  ⟨(notes_update_delete_frame wStore 10 7 "x" "y").2.2.1
     { id := 10, title := "t", content := "c", user := 5 } (by decide)
     (by decide),
   (notes_update_delete_frame wStore 10 7 "x" "y").2.2.2.2.2.2.2.1
     { id := 10, title := "t", content := "c", user := 5 } (by decide)
     (by decide)⟩
